import Mathlib

/-!
Verification development for the DischargeFlowAI backend.

Shallow embedding of `backend/agent_service.py` (the orchestration pipeline:
extraction stage, verification stage, task synthesis stage, agent logging)
and of `backend/server.py` (the `/overview` aggregation engine and the task
status update endpoint).

Modelling conventions:
* the Mongo document store is a `DBState` of four lists; `insert_one` appends
  at the end, `find_one` returns the first match in insertion order, and
  `update_one` updates the first match — matching Mongo natural order;
* the unreliable external calls (automation API, Gemini model, verification
  service) are oracles: inductive outcome values passed in as parameters;
* Python `datetime.now` is abstracted to one clock value `now : Int`
  (seconds) per stage invocation; UTC calendar-day bucketing is floor
  division by 86400;
* Python floats are modelled exactly as `Rat`;
* database writes themselves never fail in the model (the outer exception
  handlers of the source are reachable here only through the data-dependent
  exceptions the source can raise: missing records and missing dict keys).
-/

/-- Update the first element of a list satisfying `p` (Mongo `update_one`). -/
def updateFirst (l : List α) (p : α → Bool) (f : α → α) : List α :=
  match l with
  | [] => []
  | a :: t => if p a then f a :: t else a :: updateFirst t p f

/-- Lookup in an association list with a default (Python `dict.get(k, d)`). -/
def lookupD [BEq κ] (l : List (κ × β)) (k : κ) (d : β) : β :=
  match l.find? (fun e => e.1 == k) with
  | some e => e.2
  | none => d

/-- Increment the counter for `k` in an insertion-ordered association list,
appending a fresh entry when `k` is absent (Python dict counting idiom). -/
def bumpCount [BEq κ] (l : List (κ × Nat)) (k : κ) : List (κ × Nat) :=
  match l with
  | [] => [(k, 1)]
  | (k0, n) :: t => if k0 == k then (k0, n + 1) :: t else (k0, n) :: bumpCount t k

/-- Append `v` to the bucket for `k` in an insertion-ordered association list
of lists, creating the bucket when absent. -/
def bumpList [BEq κ] (l : List (κ × List β)) (k : κ) (v : β) : List (κ × List β) :=
  match l with
  | [] => [(k, [v])]
  | (k0, vs) :: t => if k0 == k then (k0, vs ++ [v]) :: t else (k0, vs) :: bumpList t k v

/-- Patient document (`server.py` Pydantic model `Patient`).  `mrn` is optional
because the shared `patients` collection also holds PatientCare records
without an `mrn` key; the discharge-flow queries filter on its presence. -/
structure Patient where
  id : String
  mrn : Option String
  name : String
  age : Option Int
  admission_id : String
  diagnosis : Option String
  ward : Option String
  bed : Option String
  readiness_score : Option Rat
  readmission_risk : Option Rat
  readmission_risk_level : Option String
  delay_reason : Option String
  expected_discharge_at : Option Int
  discharge_status : String
  ready_for_discharge_eval : Bool
  extraction_completed : Bool
  tasks_generated : Bool
  created_at : Int
  updated_at : Int
deriving DecidableEq, Repr

/-- The clinical payload of one extraction run: the nine clinical fields plus
the `raw_data` provenance block (`extraction_method`, `llm_reasoning`).
`billing_pending` is flattened to its `amount` and `status` entries, the only
ones the system reads or writes. -/
structure ExtractedPayload where
  labs : List (String × String)
  vitals : List (String × String)
  pharmacy_pending : List String
  radiology_pending : List String
  billing_amount : Rat
  billing_status : String
  doctor_notes : List String
  procedures : List String
  nursing_notes : List String
  discharge_blockers : List String
  extraction_method : String
  llm_reasoning : String
deriving DecidableEq, Repr

/-- Persisted `extracted_data` document: payload plus id, owner and timestamp
(the Python dict spread `{**extracted_data}` flattens the payload into the
document). -/
structure ExtractionDoc extends ExtractedPayload where
  id : String
  patient_id : String
  extracted_at : Int
deriving DecidableEq, Repr

/-- Task document as inserted by the agents and served by the API. -/
structure TaskDoc where
  id : String
  patient_id : String
  title : String
  description : String
  category : String
  priority : String
  status : String
  created_at : Int
  completed_at : Option Int
  deadline : Option Int
  assigned_to : Option String
deriving DecidableEq, Repr

/-- Agent log document (`log_agent_action` in `agent_service.py`).  The
structured `result` dict is modelled as an association list of strings. -/
structure AgentLogDoc where
  id : String
  patient_id : String
  agent_type : String
  action : String
  reasoning : Option String
  result : Option (List (String × String))
  error : Option String
  timestamp : Int
deriving DecidableEq, Repr

/-- The document store: the four collections the pipeline and the dashboard
touch. -/
structure DBState where
  patients : List Patient
  extracted_data : List ExtractionDoc
  tasks : List TaskDoc
  agent_logs : List AgentLogDoc
deriving DecidableEq, Repr

/-- Mongo `db.patients.find_one({"id": pid})`. -/
def findPatient (s : DBState) (pid : String) : Option Patient :=
  s.patients.find? (fun p => p.id == pid)

/-- Mongo `db.extracted_data.find_one({"patient_id": pid})`. -/
def findExtracted (s : DBState) (pid : String) : Option ExtractionDoc :=
  s.extracted_data.find? (fun d => d.patient_id == pid)

/-- Mongo `db.tasks.find_one`-style lookup by task id. -/
def findTask (s : DBState) (tid : String) : Option TaskDoc :=
  s.tasks.find? (fun t => t.id == tid)

/-- Mongo `db.patients.update_one({"id": pid}, {"$set": ...})`. -/
def updatePatient (s : DBState) (pid : String) (f : Patient → Patient) : DBState :=
  { s with patients := updateFirst s.patients (fun p => p.id == pid) f }

/-- Mongo `db.extracted_data.insert_one`. -/
def insertExtracted (s : DBState) (d : ExtractionDoc) : DBState :=
  { s with extracted_data := s.extracted_data ++ [d] }

/-- Mongo `db.tasks.insert_one`, iterated over a batch of documents. -/
def insertTasks (s : DBState) (ts : List TaskDoc) : DBState :=
  { s with tasks := s.tasks ++ ts }

/-- The audit helper `log_agent_action` of `agent_service.py`: append one
immutable log entry. -/
def log_agent_action (s : DBState) (pid agent_type action : String)
    (reasoning : Option String) (result : Option (List (String × String)))
    (error : Option String) (now : Int) : DBState :=
  { s with agent_logs := s.agent_logs ++
      [{ id := toString now
         patient_id := pid
         agent_type := agent_type
         action := action
         reasoning := reasoning
         result := result
         error := error
         timestamp := now }] }

/-- The fields the automation response JSON may carry, each optional —
`llm_json.get(key, default)` in the source reads them with defaults. -/
structure LlmJson where
  labs : Option (List (String × String)) := none
  vitals : Option (List (String × String)) := none
  pharmacy_pending : Option (List String) := none
  radiology_pending : Option (List String) := none
  billing_amount : Option Rat := none
  billing_status : Option String := none
  doctor_notes : Option (List String) := none
  procedures : Option (List String) := none
  nursing_notes : Option (List String) := none
  discharge_blockers : Option (List String) := none
deriving DecidableEq, Repr

/-- Outcome of `json.loads(response_text)` followed by the `.get` accesses in
`run_playwright_mcp_extraction`:
* `notJson` — `json.loads` raises, caught locally, `llm_json = {}`;
* `jsonNonDict` — the text parses but not to a mapping, so the first
  `llm_json.get` raises `AttributeError` (its message is carried);
* `jsonDict` — the text parses to a mapping. -/
inductive ParseOutcome where
  | notJson
  | jsonNonDict (attrError : String)
  | jsonDict (j : LlmJson)
deriving DecidableEq, Repr

/-- Outcome of the `aiohttp` POST to the automation API inside
`run_playwright_mcp_extraction`: the request raises (transport error, or the
explicit `raise` on a non-200 status), or it returns a response whose text is
then processed. -/
inductive ApiOutcome where
  | raises (e : String)
  | returns (responseText : String) (parse : ParseOutcome)
deriving DecidableEq, Repr

/-- The success-path record of `run_playwright_mcp_extraction` (built from
`llm_json.get(..., default)` with `extraction_method "api_service_automation"`
and the first 500 characters of the response as reasoning). -/
def buildAutomationPayload (responseText : String) (j : LlmJson) : ExtractedPayload :=
  { labs := j.labs.getD []
    vitals := j.vitals.getD []
    pharmacy_pending := j.pharmacy_pending.getD []
    radiology_pending := j.radiology_pending.getD []
    billing_amount := j.billing_amount.getD 0
    billing_status := j.billing_status.getD ""
    doctor_notes := j.doctor_notes.getD []
    procedures := j.procedures.getD []
    nursing_notes := j.nursing_notes.getD []
    discharge_blockers := j.discharge_blockers.getD []
    extraction_method := "api_service_automation"
    llm_reasoning := responseText.take 500 }

/-- The fixed snapshot substituted inside the `except` handler of
`run_playwright_mcp_extraction` (source lines 134-160), tagged
`playwright_mcp_fallback`; only the reasoning text depends on the error. -/
def playwrightFallbackPayload (e : String) : ExtractedPayload :=
  { labs := [("hemoglobin", "12.5 g/dL"), ("white_blood_cell_count", "7,500/μL"),
             ("platelet_count", "250,000/μL")]
    vitals := [("blood_pressure", "120/80 mmHg"), ("heart_rate", "72 bpm"),
               ("temperature", "98.6°F"), ("respiratory_rate", "16/min")]
    pharmacy_pending := ["Discharge medications to be filled"]
    radiology_pending := []
    billing_amount := 0
    billing_status := "cleared"
    doctor_notes := ["Patient stable, ready for discharge"]
    procedures := ["Appendectomy completed successfully"]
    nursing_notes := ["Patient ambulating well", "Vital signs stable"]
    discharge_blockers := ["Awaiting pharmacy clearance"]
    extraction_method := "playwright_mcp_fallback"
    llm_reasoning := "Error during extraction: " ++ e }

/-- The `run_playwright_mcp_extraction` coroutine of `agent_service.py`.  Its
single `return extracted_data` statement sits INSIDE the `except` handler, so
the function yields a value only when the try body raises; when the request
and response processing complete without raising, control falls off the end of
the function and Python returns `None` (here `none`).  The success-path record
is built and then discarded. -/
def run_playwright_mcp_extraction (api : ApiOutcome) : Option ExtractedPayload :=
  match api with
  | .raises e => some (playwrightFallbackPayload e)
  | .returns responseText parse =>
    match parse with
    | .jsonNonDict attrError => some (playwrightFallbackPayload attrError)
    | .notJson =>
      let _ := buildAutomationPayload responseText {}
      none
    | .jsonDict j =>
      let _ := buildAutomationPayload responseText j
      none

/-- Decides whether response processing raises inside the try body of
`run_playwright_mcp_extraction` (only the not-a-mapping case does; a JSON
parse failure is absorbed by the inner try/except). -/
def parseRaisesInTry : ParseOutcome → Bool
  | .jsonNonDict _ => true
  | _ => false

/-- The static snapshot `run_extraction_agent` substitutes when
`run_playwright_mcp_extraction` returned `None` or a non-dict (source lines
470-496), tagged `fallback_static`. -/
def fallbackStaticPayload : ExtractedPayload :=
  { labs := [("hemoglobin", "13.2 g/dL"), ("white_blood_cell_count", "8,200/μL"),
             ("platelet_count", "245,000/μL")]
    vitals := [("blood_pressure", "118/76 mmHg"), ("heart_rate", "74 bpm"),
               ("temperature", "98.4°F"), ("respiratory_rate", "16/min")]
    pharmacy_pending := ["Amoxicillin 500mg", "Ibuprofen 400mg"]
    radiology_pending := ["Chest X-Ray - Follow-up"]
    billing_amount := 1250.50
    billing_status := "pending"
    doctor_notes := ["Patient recovering well", "Ready for discharge pending clearance"]
    procedures := ["Blood work completed", "Vitals monitoring"]
    nursing_notes := ["Patient stable", "Ambulatory", "No complications"]
    discharge_blockers := ["Pending pharmacy fulfillment", "Final doctor approval needed"]
    extraction_method := "fallback_static"
    llm_reasoning := "Static data used due to extraction error" }

/-- The snapshot inserted by the OUTER exception handler of
`run_extraction_agent` (source lines 553-582), tagged `error_fallback`. -/
def errorFallbackPayload (e : String) : ExtractedPayload :=
  { labs := [("hemoglobin", "13.5 g/dL"), ("white_blood_cell_count", "7,800/μL"),
             ("platelet_count", "250,000/μL")]
    vitals := [("blood_pressure", "120/80 mmHg"), ("heart_rate", "72 bpm"),
               ("temperature", "98.6°F"), ("respiratory_rate", "16/min")]
    pharmacy_pending := ["Discharge medications pending"]
    radiology_pending := []
    billing_amount := 0
    billing_status := "cleared"
    doctor_notes := ["Patient stable and progressing well"]
    procedures := ["Standard care completed"]
    nursing_notes := ["Patient ambulatory", "Vital signs stable"]
    discharge_blockers := ["Awaiting final clearance"]
    extraction_method := "error_fallback"
    llm_reasoning := "Fallback data used due to error: " ++ e }

/-- Assemble the persisted `extracted_data` document from a payload
(`extraction_doc = {"id": f"ext_{pid}_{ts}", "patient_id": pid,
**extracted_data, "extracted_at": ...}`). -/
def mkExtractionDoc (pid : String) (now : Int) (pl : ExtractedPayload) : ExtractionDoc :=
  { toExtractedPayload := pl
    id := "ext_" ++ pid ++ "_" ++ toString now
    patient_id := pid
    extracted_at := now }

/-- One task as produced by the model service or the rule-based fallback: the
`{title, description, category, priority}` shape fixed by the prompt and the
external interface contract. -/
structure GenTask where
  title : String
  description : String
  category : String
  priority : String
deriving DecidableEq, Repr

/-- Outcome of the Gemini call plus response parsing in
`run_task_generator_agent`:
* `apiError` — `ainvoke` (or client construction) raises, caught by the inner
  handler, `tasks = []`;
* `parseFail` — a response arrived but (after code-fence stripping)
  `json.loads` raises `JSONDecodeError`, `tasks = []`;
* `parsed` — the response parses to a JSON array of tasks.
The raw response string is carried for the audit log. -/
inductive GeminiOutcome where
  | apiError (e : String)
  | parseFail (raw : String)
  | parsed (raw : String) (tasks : List GenTask)
deriving DecidableEq, Repr

/-- World parameters for one `run_task_generator_agent` invocation. -/
structure TaskGenWorld where
  gemini : GeminiOutcome
  now : Int
deriving DecidableEq, Repr

/-- The raw model response string as used in the `tasks_generated` log
(`tasks_json[:200]`; the empty string when the call itself failed). -/
def GeminiOutcome.rawText : GeminiOutcome → String
  | .apiError _ => ""
  | .parseFail raw => raw
  | .parsed raw _ => raw

/-- The rule-based fallback tasks appended when the parsed model list has
fewer than 3 entries (source lines 272-315), in source order: conditional
radiology task, doctor clearance, conditional pharmacy task, nursing
checklist, conditional billing task. -/
def ruleFallbackTasks (ed : ExtractionDoc) : List GenTask :=
  (if ed.radiology_pending.isEmpty then [] else
    [{ title := "Complete Pending Radiology"
       description := "Pending radiology: " ++ String.intercalate ", " ed.radiology_pending
       category := "medical", priority := "high" }]) ++
  [{ title := "Doctor Discharge Clearance"
     description := "Obtain final discharge approval from attending physician"
     category := "medical", priority := "critical" }] ++
  (if ed.pharmacy_pending.isEmpty then [] else
    [{ title := "Pharmacy Fulfillment"
       description := "Process pending medications: " ++ String.intercalate ", " ed.pharmacy_pending
       category := "operational", priority := "high" }]) ++
  [{ title := "Nursing Discharge Checklist"
     description := "Complete discharge education and documentation"
     category := "operational", priority := "medium" }] ++
  (if ed.billing_amount > 0 then
    [{ title := "Clear Pending Bills"
       description := "Outstanding amount: $" ++ toString ed.billing_amount
       category := "financial", priority := "high" }]
   else [])

/-- The "Patient Education" essential task (source lines 320-326). -/
def patientEducationTask : GenTask :=
  { title := "Patient Education"
    description := "Provide discharge instructions and follow-up care education to patient and family"
    category := "operational", priority := "high" }

/-- The "Arrange Transportation" essential task (source lines 328-334). -/
def arrangeTransportationTask : GenTask :=
  { title := "Arrange Transportation"
    description := "Confirm patient transportation arrangements for discharge"
    category := "operational", priority := "medium" }

/-- The essential-task guarantee (source lines 317-334): the title list is
computed ONCE before any append, then "Patient Education" and "Arrange
Transportation" are appended when absent from that list. -/
def addEssentialTasks (tasks : List GenTask) : List GenTask :=
  let task_titles := tasks.map (fun t => t.title)
  let tasks1 :=
    if task_titles.contains "Patient Education" then tasks
    else tasks ++ [patientEducationTask]
  if task_titles.contains "Arrange Transportation" then tasks1
  else tasks1 ++ [arrangeTransportationTask]

/-- Persist one generated task (source lines 337-348): fresh document with
status "pending" and null completion fields.  The id embeds `len(tasks)` — the
TOTAL count, identical for every task of the batch. -/
def mkTaskDoc (pid : String) (now : Int) (total : Nat) (g : GenTask) : TaskDoc :=
  { id := "task_" ++ pid ++ "_" ++ toString now ++ "_" ++ toString total
    patient_id := pid
    title := g.title
    description := g.description
    category := g.category
    priority := g.priority
    status := "pending"
    created_at := now
    completed_at := none
    deadline := none
    assigned_to := none }

/-- The fixed five-item hard-fallback task list of the outer exception handler
(source lines 375-406). -/
def hardFallbackTasks : List GenTask :=
  [{ title := "Doctor Discharge Clearance"
     description := "Obtain final discharge approval from attending physician"
     category := "medical", priority := "critical" },
   { title := "Complete Discharge Documentation"
     description := "Ensure all discharge paperwork is completed and signed"
     category := "operational", priority := "high" },
   { title := "Patient Education"
     description := "Provide discharge instructions and follow-up care education to patient and family"
     category := "operational", priority := "high" },
   { title := "Arrange Transportation"
     description := "Confirm patient transportation arrangements for discharge"
     category := "operational", priority := "medium" },
   { title := "Verify Insurance and Billing"
     description := "Confirm all billing and insurance matters are resolved"
     category := "financial", priority := "medium" }]

/-- The model task list the primary path works from: empty when the patient
lacks an `mrn` key (building the prompt then raises `KeyError('mrn')`, caught
by the inner Gemini handler) or when the Gemini call or its JSON parse
failed. -/
def modelTasksOf (patient : Patient) (g : GeminiOutcome) : List GenTask :=
  match patient.mrn, g with
  | none, _ => []
  | some _, .apiError _ => []
  | some _, .parseFail _ => []
  | some _, .parsed _ ts => ts

/-- The final task list of the primary path: model tasks, topped up with the
rule-based fallback when fewer than 3, then the essential-task guarantee. -/
def generatedTasks (patient : Patient) (ed : ExtractionDoc) (g : GeminiOutcome) : List GenTask :=
  let modelTasks := modelTasksOf patient g
  let tasks :=
    if modelTasks.length < 3 then modelTasks ++ ruleFallbackTasks ed else modelTasks
  addEssentialTasks tasks

/-- Primary path of `run_task_generator_agent` (patient and extracted data
both found): log the start, build the task list, insert every task as a
pending document, set `tasks_generated` and derive `discharge_status` from
the discharge-blockers list, and log completion. -/
def taskGenPrimary (s : DBState) (patient_id : String) (patient : Patient)
    (ed : ExtractionDoc) (w : TaskGenWorld) : DBState :=
  let s := log_agent_action s patient_id "task_generator_agent" "start_task_generation"
    (some "Analyzing extracted data to generate discharge tasks") none none w.now
  let tasks := generatedTasks patient ed w.gemini
  let s := insertTasks s (tasks.map (mkTaskDoc patient_id w.now tasks.length))
  let s := updatePatient s patient_id (fun q =>
    { q with tasks_generated := true
             discharge_status := if ed.discharge_blockers.isEmpty then "ready" else "blocked"
             updated_at := w.now })
  log_agent_action s patient_id "task_generator_agent" "tasks_generated"
    (some ("Generated " ++ toString tasks.length ++ " discharge tasks"))
    (some [("task_count", toString tasks.length), ("llm_response", w.gemini.rawText.take 200)])
    none w.now

/-- Hard-fallback path of `run_task_generator_agent` (the stage body raised —
here: patient or extracted data missing): insert the fixed five-task list,
set `tasks_generated = true` and `discharge_status = "pending"` on the first
matching patient if any, and log `task_generation_failed` with the error
text. -/
def taskGenHardFallback (s : DBState) (patient_id : String) (w : TaskGenWorld) : DBState :=
  let s := insertTasks s (hardFallbackTasks.map (mkTaskDoc patient_id w.now hardFallbackTasks.length))
  let s := updatePatient s patient_id (fun q =>
    { q with tasks_generated := true
             discharge_status := "pending"
             updated_at := w.now })
  log_agent_action s patient_id "task_generator_agent" "task_generation_failed"
    none (some [("fallback_tasks_inserted", "true")])
    (some "Missing patient or extracted data") w.now

/-- The `run_task_generator_agent` coroutine of `agent_service.py`: dispatch
on the two prerequisite lookups. -/
def run_task_generator_agent (s : DBState) (patient_id : String) (w : TaskGenWorld) : DBState :=
  match findPatient s patient_id, findExtracted s patient_id with
  | some patient, some ed => taskGenPrimary s patient_id patient ed w
  | some _, none => taskGenHardFallback s patient_id w
  | none, _ => taskGenHardFallback s patient_id w

/-- Outcome of the advisory discharge-verification POST inside
`run_extraction_agent`: success (status 200), any non-success status, a
transport failure, or the httpx 10-second timeout elapsing (which surfaces as
a raised exception). -/
inductive VerifyOutcome where
  | success
  | nonSuccess (statusCode : Nat)
  | transportError (e : String)
  | timeout
deriving DecidableEq, Repr

/-- World parameters for one `run_extraction_agent` invocation. -/
structure ExtractionWorld where
  api : ApiOutcome
  verify : VerifyOutcome
  taskWorld : TaskGenWorld
  now : Int
deriving DecidableEq, Repr

/-- The verification step (source lines 526-541 and 604-619): every outcome is
only logged via `logger`; no database document is read or written, and every
exception is swallowed by the surrounding handler. -/
def verificationStep (s : DBState) (v : VerifyOutcome) : DBState :=
  match v with
  | .success => s
  | .nonSuccess _ => s
  | .transportError _ => s
  | .timeout => s

/-- The extraction record `run_extraction_agent` actually persists for a given
automation outcome: the value returned by `run_playwright_mcp_extraction`,
with the `fallback_static` snapshot substituted when that value is `None`
(`if not extracted_data or not isinstance(extracted_data, dict)`, source
lines 468-496). -/
def persistedPayload (api : ApiOutcome) : ExtractedPayload :=
  match run_playwright_mcp_extraction api with
  | none => fallbackStaticPayload
  | some pl => pl

/-- The body of `run_extraction_agent` for a found patient, up to (and not
including) the verification step.

With an `mrn` present: log the start, call `run_playwright_mcp_extraction`,
substitute `fallbackStaticPayload` when the result is `None` (the invariable
outcome of a non-raising call) or not a dict, persist the document, set
`extraction_completed`, and log `extraction_complete`.

Without an `mrn` key: the f-string of the start log raises `KeyError('mrn')`
before anything is written, so the OUTER handler runs: it persists the
`error_fallback` document, sets `extraction_completed`, and logs
`extraction_failed_fallback_used` — whose `error` argument is NOT passed (the
error text rides in `reasoning` and `result`). -/
def extractionPhase (s : DBState) (pid : String) (patient : Patient) (w : ExtractionWorld) : DBState :=
  match patient.mrn with
  | some mrn =>
    let s := log_agent_action s pid "extraction_agent" "start_extraction"
      (some ("Starting data extraction for patient " ++ mrn)) none none w.now
    let doc := mkExtractionDoc pid w.now (persistedPayload w.api)
    let s := insertExtracted s doc
    let s := updatePatient s pid (fun q =>
      { q with extraction_completed := true, updated_at := w.now })
    log_agent_action s pid "extraction_agent" "extraction_complete"
      (some "Successfully extracted patient data")
      (some [("extraction_id", doc.id)]) none w.now
  | none =>
    let e := "'mrn'"
    let doc := mkExtractionDoc pid w.now (errorFallbackPayload e)
    let s := insertExtracted s doc
    let s := updatePatient s pid (fun q =>
      { q with extraction_completed := true, updated_at := w.now })
    log_agent_action s pid "extraction_agent" "extraction_failed_fallback_used"
      (some ("Extraction error occurred, used fallback data: " ++ e))
      (some [("extraction_id", doc.id), ("error", e)]) none w.now

/-- The `run_extraction_agent` coroutine of `agent_service.py`: a missing
patient aborts silently (log line only); otherwise the extraction phase runs
(normal or outer-handler path), then the advisory verification step, then —
unconditionally in both source paths — `run_task_generator_agent`. -/
def run_extraction_agent (s : DBState) (patient_id : String) (w : ExtractionWorld) : DBState :=
  match findPatient s patient_id with
  | none => s
  | some patient =>
    let s := extractionPhase s patient_id patient w
    let s := verificationStep s w.verify
    run_task_generator_agent s patient_id w.taskWorld

/-- The `update_task_status` endpoint of `server.py` (lines 671-685): update
the first task with the given id, setting `status` and `completed_at` (the
current time exactly when the new status is "completed", null otherwise).  A
missing task only changes the HTTP response, not the store. -/
def update_task_status (s : DBState) (task_id : String) (status : String) (now : Int) : DBState :=
  { s with tasks := updateFirst s.tasks (fun t => t.id == task_id) (fun t =>
      { t with status := status
               completed_at := if status == "completed" then some now else none }) }

/-- UTC calendar day of an epoch-seconds timestamp (`dt.date().isoformat()`
day bucketing, as a day number). -/
def dayOf (ts : Int) : Int := Int.fdiv ts 86400

/-- The 0-to-24-hour window test used for `expected_discharge_at`
(`0 <= (t - now).total_seconds() <= 86400`). -/
def within24h (now t : Int) : Bool := decide (0 ≤ t - now) && decide (t - now ≤ 86400)

/-- Sum of a list of rationals (Python `sum`). -/
def sumRat (l : List Rat) : Rat := l.foldl (fun a b => a + b) 0

/-- KPI block of the overview response. -/
structure OverviewKpis where
  current_inpatients : Nat
  pending_discharges : Nat
  avg_readiness_score : Option Rat
  avg_length_of_stay_days : Option Rat
  expected_discharges_24h : Nat
  high_readmission_risk : Nat
deriving DecidableEq, Repr

/-- One point of the 30-day discharge-throughput series. -/
structure ThroughputPoint where
  date : Int
  actual : Nat
  target : Nat
  movingAvg : Rat
deriving DecidableEq, Repr

/-- One point of the 14-day task-completion trend. -/
structure TaskTrendPoint where
  date : Int
  completed : Nat
  outstanding : Nat
deriving DecidableEq, Repr

/-- One row of the delay-reason table. -/
structure DelayReasonMetric where
  reason : String
  count : Nat
  avgDelayHours : Rat
deriving DecidableEq, Repr

/-- One row of the ward-occupancy table. -/
structure WardOccupancy where
  ward : String
  occupancy : Rat
  nurseRatio : Option String
  expected24h : Nat
deriving DecidableEq, Repr

/-- One per-patient summary row of the overview response. -/
structure OverviewPatientSummary where
  id : String
  name : String
  age : Option Int
  ward : Option String
  bed : Option String
  mrn : String
  diagnosis : Option String
  readinessScore : Option Rat
  pendingTasks : Nat
  lastAdmission : Int
  nextAction : Option String
  dischargeStatus : String
  delayReason : Option String
  losDays : Rat
  insuranceType : Option String
  attendingPhysician : Option String
  riskLevel : Option String
deriving DecidableEq, Repr

/-- The full overview response. -/
structure OverviewResponse where
  kpis : OverviewKpis
  throughput : List ThroughputPoint
  taskTrend : List TaskTrendPoint
  delayReasons : List DelayReasonMetric
  occupancyByWard : List WardOccupancy
  patients : List OverviewPatientSummary
deriving DecidableEq, Repr

/-- Per-day (completed, outstanding) task counters, insertion ordered
(`task_trend_map` in the source). -/
def bumpTrend (l : List (Int × Nat × Nat)) (k : Int) (isCompleted : Bool) : List (Int × Nat × Nat) :=
  match l with
  | [] => [(k, if isCompleted then (1, 0) else (0, 1))]
  | (k0, c, o) :: t =>
    if k0 == k then (k0, if isCompleted then (c + 1, o) else (c, o + 1)) :: t
    else (k0, c, o) :: bumpTrend t k isCompleted

/-- Length of stay in days of a patient at time `now`
(`(now - p.created_at).total_seconds() / 86400.0`). -/
def losDaysOf (now : Int) (p : Patient) : Rat := ((now - p.created_at : Int) : Rat) / 86400

/-- The truthy expected-discharge-within-24h test on a patient. -/
def expectedIn24h (now : Int) (p : Patient) : Bool :=
  match p.expected_discharge_at with
  | some t => within24h now t
  | none => false

/-- KPI block computation (server.py lines 379-421). -/
def kpisOf (patients : List Patient) (now : Int) : OverviewKpis :=
  let readiness_values := patients.filterMap (fun p => p.readiness_score)
  let los_values := patients.map (losDaysOf now)
  { current_inpatients := patients.countP (fun p => !(p.discharge_status == "completed"))
    pending_discharges := patients.countP (fun p =>
      p.discharge_status == "in_progress" || p.discharge_status == "ready")
    avg_readiness_score :=
      if readiness_values.isEmpty then none
      else some (sumRat readiness_values / (readiness_values.length : Rat))
    avg_length_of_stay_days :=
      if los_values.isEmpty then none
      else some (sumRat los_values / (los_values.length : Rat))
    expected_discharges_24h := patients.countP (expectedIn24h now)
    high_readmission_risk := patients.countP (fun p =>
      (match p.readmission_risk with
       | some r => decide ((0.7 : Rat) ≤ r)
       | none => false) ||
      (match p.readmission_risk_level with
       | some l => !(l == "") && l.toLower == "high"
       | none => false)) }

/-- Discharge-throughput series over the trailing 30 days (server.py lines
423-448): per-day completed-patient counts by `updated_at` day, a constant
target of 10, and a trailing window of at most 7 counts for the moving
average. -/
def throughputOf (patients : List Patient) (now : Int) : List ThroughputPoint :=
  let throughput_map := patients.foldl (fun m p =>
    if p.discharge_status == "completed" then bumpCount m (dayOf p.updated_at) else m) []
  let last_30_days := (List.range 30).map (fun i => dayOf now - 29 + (i : Int))
  (last_30_days.foldl
    (fun (acc : List ThroughputPoint × List Nat) d =>
      let count := lookupD throughput_map d 0
      let window0 := acc.2 ++ [count]
      let window := if window0.length > 7 then window0.drop 1 else window0
      let avg : Rat :=
        if window.isEmpty then 0
        else ((window.foldl (fun a b => a + b) 0 : Nat) : Rat) / (window.length : Rat)
      (acc.1 ++ [{ date := d, actual := count, target := 10, movingAvg := avg }], window))
    ([], [])).1

/-- Task-completion trend over the trailing 14 days (server.py lines
450-473). -/
def taskTrendOf (tasks : List TaskDoc) (now : Int) : List TaskTrendPoint :=
  let task_trend_map := tasks.foldl (fun m t =>
    bumpTrend m (dayOf t.created_at) (t.status == "completed")) []
  ((List.range 14).map (fun i => dayOf now - 13 + (i : Int))).map (fun d =>
    let entry := lookupD task_trend_map d (0, 0)
    { date := d, completed := entry.1, outstanding := entry.2 })

/-- Delay-reason table (server.py lines 475-492): buckets of hours since
admission keyed by non-empty `delay_reason`, in first-seen order. -/
def delayReasonsOf (patients : List Patient) (now : Int) : List DelayReasonMetric :=
  let delay_counts := patients.foldl (fun m p =>
    match p.delay_reason with
    | none => m
    | some r => if r == "" then m else bumpList m r (((now - p.created_at : Int) : Rat) / 3600)) []
  delay_counts.map (fun e =>
    { reason := e.1
      count := e.2.length
      avgDelayHours := if e.2.isEmpty then 0 else sumRat e.2 / (e.2.length : Rat) })

/-- Ward-occupancy table (server.py lines 494-520): per-ward counts, occupancy
relative to the single largest ward, and that ward's expected discharges
within 24 hours. -/
def wardOccupancyOf (patients : List Patient) (now : Int) : List WardOccupancy :=
  let ward_counts := patients.foldl (fun m p =>
    match p.ward with
    | none => m
    | some w => if w == "" then m else bumpCount m w) []
  let max_count := (ward_counts.map (fun e => e.2)).foldl max 0
  ward_counts.map (fun e =>
    { ward := e.1
      occupancy := if max_count > 0 then (e.2 : Rat) / (max_count : Rat) * 100 else 0
      nurseRatio := none
      expected24h := patients.countP (fun p => p.ward == some e.1 && expectedIn24h now p) })

/-- Per-patient summary rows (server.py lines 522-553). -/
def patientSummariesOf (patients : List Patient) (tasks : List TaskDoc) (now : Int) :
    List OverviewPatientSummary :=
  patients.map (fun p =>
    let patient_tasks := tasks.filter (fun t => t.patient_id == p.id)
    { id := p.id
      name := p.name
      age := p.age
      ward := p.ward
      bed := p.bed
      mrn := p.mrn.getD ""
      diagnosis := p.diagnosis
      readinessScore := p.readiness_score
      pendingTasks := patient_tasks.countP (fun t => !(t.status == "completed"))
      lastAdmission := p.created_at
      nextAction := none
      dischargeStatus := p.discharge_status
      delayReason := p.delay_reason
      losDays := losDaysOf now p
      insuranceType := none
      attendingPhysician := none
      riskLevel := p.readmission_risk_level })

/-- The aggregation engine: the body of the `/api/overview` route
(`get_overview`, server.py lines 322-562), as a pure function of the patient
collection, the task collection and the current time.  Record-level
normalization failures are not representable here because the embedded
documents are well typed; the `isinstance` datetime guards of the source are
therefore always satisfied. -/
def overviewOf (rawPatients : List Patient) (allTasks : List TaskDoc) (now : Int) : OverviewResponse :=
  let patients := rawPatients.filter (fun p => p.mrn.isSome)
  let patient_ids := patients.map (fun p => p.id)
  let tasks :=
    if patient_ids.isEmpty then []
    else allTasks.filter (fun t => patient_ids.contains t.patient_id)
  { kpis := kpisOf patients now
    throughput := throughputOf patients now
    taskTrend := taskTrendOf tasks now
    delayReasons := delayReasonsOf patients now
    occupancyByWard := wardOccupancyOf patients now
    patients := patientSummariesOf patients tasks now }

/-- The `/api/overview` route: it reads exactly the `patients` and `tasks`
collections of the store and the current clock. -/
def get_overview (s : DBState) (now : Int) : OverviewResponse :=
  overviewOf s.patients s.tasks now

/-! Helper lemmas about the store primitives. -/

theorem find?_updateFirst {α} (l : List α) (p : α → Bool) (f : α → α)
    (hf : ∀ a, p (f a) = p a) : (updateFirst l p f).find? p = (l.find? p).map f := by
  induction l with
  | nil => simp [updateFirst]
  | cons a t ih =>
    cases hpa : p a with
    | true =>
      simp [updateFirst, hpa, List.find?_cons, hf a]
    | false =>
      simp [updateFirst, hpa, List.find?_cons, ih]

theorem mem_updateFirst {α} {l : List α} {p : α → Bool} {f : α → α} {x : α}
    (h : x ∈ updateFirst l p f) : x ∈ l ∨ ∃ a, a ∈ l ∧ x = f a := by
  induction l with
  | nil => simp [updateFirst] at h
  | cons a t ih =>
    by_cases hpa : p a
    · simp [updateFirst, hpa] at h
      rcases h with h | h
      · exact Or.inr ⟨a, by simp, h⟩
      · exact Or.inl (by simp [h])
    · simp [updateFirst, hpa] at h
      rcases h with h | h
      · exact Or.inl (by simp [h])
      · rcases ih h with h1 | ⟨b, hb, hx⟩
        · exact Or.inl (by simp [h1])
        · exact Or.inr ⟨b, by simp [hb], hx⟩

theorem find?_append_or {α} (l1 l2 : List α) (p : α → Bool) :
    (l1 ++ l2).find? p = ((l1.find? p).orElse (fun _ => l2.find? p)) := by
  induction l1 with
  | nil => simp
  | cons a t ih =>
    by_cases hpa : p a
    · simp [List.find?_cons, hpa]
    · simp [List.find?_cons, hpa, ih]

theorem findPatient_updatePatient (s : DBState) (pid : String) (f : Patient → Patient)
    (hf : ∀ q, (f q).id = q.id) :
    findPatient (updatePatient s pid f) pid = (findPatient s pid).map f := by
  unfold findPatient updatePatient
  exact find?_updateFirst _ _ _ (fun a => by simp [hf a])

theorem findPatient_insertTasks (s : DBState) (ts : List TaskDoc) (pid : String) :
    findPatient (insertTasks s ts) pid = findPatient s pid := rfl

theorem findPatient_insertExtracted (s : DBState) (d : ExtractionDoc) (pid : String) :
    findPatient (insertExtracted s d) pid = findPatient s pid := rfl

theorem findPatient_log (s : DBState) (a b c : String) (r : Option String)
    (res : Option (List (String × String))) (e : Option String) (n : Int) (pid : String) :
    findPatient (log_agent_action s a b c r res e n) pid = findPatient s pid := rfl

theorem findExtracted_insertExtracted_self (s : DBState) (d : ExtractionDoc) (pid : String)
    (hd : d.patient_id = pid) : (findExtracted (insertExtracted s d) pid).isSome := by
  unfold findExtracted insertExtracted
  simp only [find?_append_or]
  cases h : s.extracted_data.find? (fun x => x.patient_id == pid) with
  | some x => simp [Option.orElse, h]
  | none => simp [Option.orElse, h, List.find?_cons, hd]

/-! Effects of the task synthesis stage, by path. -/

theorem taskGenPrimary_state (s : DBState) (pid : String) (patient : Patient)
    (ed : ExtractionDoc) (w : TaskGenWorld) :
    (taskGenPrimary s pid patient ed w).extracted_data = s.extracted_data ∧
    (taskGenPrimary s pid patient ed w).tasks =
      s.tasks ++ (generatedTasks patient ed w.gemini).map
        (mkTaskDoc pid w.now (generatedTasks patient ed w.gemini).length) ∧
    (taskGenPrimary s pid patient ed w).patients =
      updateFirst s.patients (fun p => p.id == pid) (fun q =>
        { q with tasks_generated := true
                 discharge_status := if ed.discharge_blockers.isEmpty then "ready" else "blocked"
                 updated_at := w.now }) := by
  refine ⟨rfl, rfl, rfl⟩

theorem taskGenHardFallback_state (s : DBState) (pid : String) (w : TaskGenWorld) :
    (taskGenHardFallback s pid w).extracted_data = s.extracted_data ∧
    (taskGenHardFallback s pid w).tasks =
      s.tasks ++ hardFallbackTasks.map (mkTaskDoc pid w.now hardFallbackTasks.length) ∧
    (taskGenHardFallback s pid w).patients =
      updateFirst s.patients (fun p => p.id == pid) (fun q =>
        { q with tasks_generated := true
                 discharge_status := "pending"
                 updated_at := w.now }) := by
  refine ⟨rfl, rfl, rfl⟩

theorem taskgen_extracted (s : DBState) (pid : String) (w : TaskGenWorld) :
    (run_task_generator_agent s pid w).extracted_data = s.extracted_data := by
  unfold run_task_generator_agent
  rcases h1 : findPatient s pid with _ | p <;> rcases h2 : findExtracted s pid with _ | ed <;> rfl

theorem taskgen_tasks_append (s : DBState) (pid : String) (w : TaskGenWorld) :
    ∃ ts : List GenTask, (run_task_generator_agent s pid w).tasks =
      s.tasks ++ ts.map (mkTaskDoc pid w.now ts.length) := by
  unfold run_task_generator_agent
  rcases h1 : findPatient s pid with _ | p <;> rcases h2 : findExtracted s pid with _ | ed
  · exact ⟨hardFallbackTasks, rfl⟩
  · exact ⟨hardFallbackTasks, rfl⟩
  · exact ⟨hardFallbackTasks, rfl⟩
  · exact ⟨generatedTasks p ed w.gemini, rfl⟩

/-! Facts about the generated task lists. -/

theorem ruleFallbackTasks_no_education (ed : ExtractionDoc) :
    ¬ ∃ t ∈ ruleFallbackTasks ed, t.title = "Patient Education" := by
  unfold ruleFallbackTasks
  split_ifs <;> simp

theorem ruleFallbackTasks_no_transport (ed : ExtractionDoc) :
    ¬ ∃ t ∈ ruleFallbackTasks ed, t.title = "Arrange Transportation" := by
  unfold ruleFallbackTasks
  split_ifs <;> simp

theorem ruleFallbackTasks_length (ed : ExtractionDoc) :
    2 ≤ (ruleFallbackTasks ed).length := by
  unfold ruleFallbackTasks
  split_ifs <;> simp

theorem addEssentialTasks_length (l : List GenTask) :
    l.length ≤ (addEssentialTasks l).length := by
  unfold addEssentialTasks
  by_cases h1 : ∃ a ∈ l, a.title = "Patient Education" <;>
    by_cases h2 : ∃ a ∈ l, a.title = "Arrange Transportation" <;>
      simp [h1, h2]

theorem addEssentialTasks_length_two_of_fresh (l : List GenTask)
    (h1 : ¬ ∃ a ∈ l, a.title = "Patient Education")
    (h2 : ¬ ∃ a ∈ l, a.title = "Arrange Transportation") :
    (addEssentialTasks l).length = l.length + 2 := by
  unfold addEssentialTasks
  simp [h1, h2]

theorem addEssentialTasks_mem_education (l : List GenTask) :
    ∃ t ∈ addEssentialTasks l, t.title = "Patient Education" := by
  unfold addEssentialTasks
  by_cases h1 : ∃ a ∈ l, a.title = "Patient Education"
  · obtain ⟨t, ht, htt⟩ := h1
    have h1 : ∃ a ∈ l, a.title = "Patient Education" := ⟨t, ht, htt⟩
    by_cases h2 : ∃ a ∈ l, a.title = "Arrange Transportation" <;>
      refine ⟨t, ?_, htt⟩ <;> simp [h1, h2, ht]
  · by_cases h2 : ∃ a ∈ l, a.title = "Arrange Transportation" <;>
      refine ⟨patientEducationTask, ?_, rfl⟩ <;> simp [h1, h2]

theorem addEssentialTasks_mem_transport (l : List GenTask) :
    ∃ t ∈ addEssentialTasks l, t.title = "Arrange Transportation" := by
  unfold addEssentialTasks
  by_cases h2 : ∃ a ∈ l, a.title = "Arrange Transportation"
  · obtain ⟨t, ht, htt⟩ := h2
    have h2 : ∃ a ∈ l, a.title = "Arrange Transportation" := ⟨t, ht, htt⟩
    by_cases h1 : ∃ a ∈ l, a.title = "Patient Education" <;>
      refine ⟨t, ?_, htt⟩ <;> simp [h1, h2, ht]
  · by_cases h1 : ∃ a ∈ l, a.title = "Patient Education" <;>
      refine ⟨arrangeTransportationTask, ?_, rfl⟩ <;> simp [h1, h2]

theorem generatedTasks_length (patient : Patient) (ed : ExtractionDoc) (g : GeminiOutcome) :
    3 ≤ (generatedTasks patient ed g).length := by
  unfold generatedTasks
  set m := modelTasksOf patient g with hm
  by_cases h3 : m.length < 3
  · simp only [h3, if_true]
    rcases Nat.eq_zero_or_pos m.length with h0 | h0
    · have hm0 : m = [] := List.length_eq_zero.mp h0
      rw [hm0, List.nil_append]
      rw [addEssentialTasks_length_two_of_fresh _ (ruleFallbackTasks_no_education ed)
        (ruleFallbackTasks_no_transport ed)]
      have := ruleFallbackTasks_length ed
      omega
    · have h1 : 3 ≤ (m ++ ruleFallbackTasks ed).length := by
        rw [List.length_append]
        have := ruleFallbackTasks_length ed
        omega
      exact le_trans h1 (addEssentialTasks_length _)
  · simp only [h3, if_false]
    exact le_trans (by omega) (addEssentialTasks_length m)

theorem generatedTasks_mem_education (patient : Patient) (ed : ExtractionDoc) (g : GeminiOutcome) :
    ∃ t ∈ generatedTasks patient ed g, t.title = "Patient Education" := by
  unfold generatedTasks
  exact addEssentialTasks_mem_education _

theorem generatedTasks_mem_transport (patient : Patient) (ed : ExtractionDoc) (g : GeminiOutcome) :
    ∃ t ∈ generatedTasks patient ed g, t.title = "Arrange Transportation" := by
  unfold generatedTasks
  exact addEssentialTasks_mem_transport _

/-- Tasks of one patient, in insertion order. -/
def tasksFor (s : DBState) (pid : String) : List TaskDoc :=
  s.tasks.filter (fun t => t.patient_id == pid)

theorem run_taskgen_primary (s : DBState) (pid : String) (patient : Patient)
    (ed : ExtractionDoc) (w : TaskGenWorld)
    (hp : findPatient s pid = some patient) (he : findExtracted s pid = some ed) :
    run_task_generator_agent s pid w = taskGenPrimary s pid patient ed w := by
  unfold run_task_generator_agent
  rw [hp, he]

theorem run_taskgen_fallback (s : DBState) (pid : String) (w : TaskGenWorld)
    (h : findPatient s pid = none ∨ findExtracted s pid = none) :
    run_task_generator_agent s pid w = taskGenHardFallback s pid w := by
  unfold run_task_generator_agent
  rcases h with h | h
  · rw [h]
  · rw [h]
    rcases hp : findPatient s pid with _ | p <;> rfl

/-- C6: for every patient for which Task Synthesis completes its primary path
(patient and extracted data both present), each generated task is persisted as
a new Task record with status "pending" (and a null completion time), and the
patient is updated with `tasks_generated = true` and `discharge_status` equal
to "ready" when the ExtractedData discharge-blockers list is empty and
"blocked" otherwise. -/
theorem task_synthesis_primary_persists_pending_and_derives_status
    (s : DBState) (pid : String) (patient : Patient) (ed : ExtractionDoc) (w : TaskGenWorld)
    (hp : findPatient s pid = some patient) (he : findExtracted s pid = some ed) :
    ∃ newDocs : List TaskDoc,
      (run_task_generator_agent s pid w).tasks = s.tasks ++ newDocs ∧
      newDocs.length = (generatedTasks patient ed w.gemini).length ∧
      (∀ t ∈ newDocs, t.patient_id = pid ∧ t.status = "pending" ∧ t.completed_at = none) ∧
      findPatient (run_task_generator_agent s pid w) pid =
        some { patient with
                 tasks_generated := true
                 discharge_status := if ed.discharge_blockers.isEmpty then "ready" else "blocked"
                 updated_at := w.now } := by
  have hrun := run_taskgen_primary s pid patient ed w hp he
  obtain ⟨hext, htasks, hpats⟩ := taskGenPrimary_state s pid patient ed w
  refine ⟨(generatedTasks patient ed w.gemini).map
    (mkTaskDoc pid w.now (generatedTasks patient ed w.gemini).length), ?_, by simp, ?_, ?_⟩
  · rw [hrun, htasks]
  · intro t ht
    obtain ⟨g, _, rfl⟩ := List.mem_map.mp ht
    exact ⟨rfl, rfl, rfl⟩
  · rw [hrun]
    unfold findPatient
    rw [hpats]
    rw [find?_updateFirst s.patients (fun p => p.id == pid)
      (fun q => { q with tasks_generated := true
                         discharge_status := if ed.discharge_blockers.isEmpty then "ready" else "blocked"
                         updated_at := w.now }) (fun a => rfl)]
    have hp' : s.patients.find? (fun p => p.id == pid) = some patient := hp
    rw [hp']
    rfl

theorem filter_mkTaskDoc (pid : String) (now : Int) (total : Nat) (gs : List GenTask) :
    (gs.map (mkTaskDoc pid now total)).filter (fun t => t.patient_id == pid) =
      gs.map (mkTaskDoc pid now total) := by
  rw [List.filter_eq_self]
  intro t ht
  obtain ⟨g, _, rfl⟩ := List.mem_map.mp ht
  simp [mkTaskDoc]

theorem mem_map_title (pid : String) (now : Int) (total : Nat) (gs : List GenTask)
    (gt : String) (h : ∃ g ∈ gs, g.title = gt) :
    ∃ t ∈ gs.map (mkTaskDoc pid now total), t.title = gt := by
  obtain ⟨g, hg, hgt⟩ := h
  exact ⟨mkTaskDoc pid now total g, List.mem_map.mpr ⟨g, hg, rfl⟩, hgt⟩

theorem hardFallbackTasks_mem_education :
    ∃ g ∈ hardFallbackTasks, g.title = "Patient Education" := by
  refine ⟨patientEducationTask, ?_, rfl⟩
  simp [hardFallbackTasks, patientEducationTask]

theorem hardFallbackTasks_mem_transport :
    ∃ g ∈ hardFallbackTasks, g.title = "Arrange Transportation" := by
  refine ⟨arrangeTransportationTask, ?_, rfl⟩
  simp [hardFallbackTasks, arrangeTransportationTask]

/-- C3 (amended): after Task Synthesis completes by any path, at least 3 task
documents for the patient are inserted (so the task set is never empty), at
least one is titled "Patient Education" and at least one "Arrange
Transportation", and if the patient record exists its `tasks_generated` flag
is true.  The spec's stronger "at least 5" and "exactly one of each essential
title" are refuted by `task_synthesis_five_task_guarantee_cex`. -/
theorem task_synthesis_core_guarantees (s : DBState) (pid : String) (w : TaskGenWorld) :
    ∃ newDocs : List TaskDoc,
      (run_task_generator_agent s pid w).tasks = s.tasks ++ newDocs ∧
      tasksFor (run_task_generator_agent s pid w) pid = tasksFor s pid ++ newDocs ∧
      3 ≤ newDocs.length ∧
      (∃ t ∈ newDocs, t.title = "Patient Education") ∧
      (∃ t ∈ newDocs, t.title = "Arrange Transportation") ∧
      (∀ p, findPatient s pid = some p →
        ∃ q, findPatient (run_task_generator_agent s pid w) pid = some q ∧
          q.tasks_generated = true) := by
  rcases hp : findPatient s pid with _ | patient
  · have hrun := run_taskgen_fallback s pid w (Or.inl hp)
    obtain ⟨hext2, htasks2, hpats2⟩ := taskGenHardFallback_state s pid w
    refine ⟨hardFallbackTasks.map (mkTaskDoc pid w.now hardFallbackTasks.length),
      ?_, ?_, ?_, ?_, ?_, ?_⟩
    · rw [hrun, htasks2]
    · unfold tasksFor
      rw [hrun, htasks2, List.filter_append, filter_mkTaskDoc]
    · simp [hardFallbackTasks]
    · exact mem_map_title _ _ _ _ _ hardFallbackTasks_mem_education
    · exact mem_map_title _ _ _ _ _ hardFallbackTasks_mem_transport
    · intro p hp2
      exact absurd hp2 (by simp)
  · rcases he : findExtracted s pid with _ | ed
    · have hrun := run_taskgen_fallback s pid w (Or.inr he)
      obtain ⟨hext2, htasks2, hpats2⟩ := taskGenHardFallback_state s pid w
      refine ⟨hardFallbackTasks.map (mkTaskDoc pid w.now hardFallbackTasks.length),
        ?_, ?_, ?_, ?_, ?_, ?_⟩
      · rw [hrun, htasks2]
      · unfold tasksFor
        rw [hrun, htasks2, List.filter_append, filter_mkTaskDoc]
      · simp [hardFallbackTasks]
      · exact mem_map_title _ _ _ _ _ hardFallbackTasks_mem_education
      · exact mem_map_title _ _ _ _ _ hardFallbackTasks_mem_transport
      · intro p hp2
        injection hp2 with hpe
        subst hpe
        refine ⟨{ patient with
          tasks_generated := true
          discharge_status := "pending"
          updated_at := w.now }, ?_, rfl⟩
        rw [hrun]
        unfold findPatient
        rw [hpats2]
        rw [find?_updateFirst s.patients (fun p => p.id == pid)
          (fun q => { q with
            tasks_generated := true
            discharge_status := "pending"
            updated_at := w.now }) (fun a => rfl)]
        have hp' : s.patients.find? (fun p => p.id == pid) = some patient := hp
        rw [hp']
        rfl
    · have hrun := run_taskgen_primary s pid patient ed w hp he
      obtain ⟨hext, htasks, hpats⟩ := taskGenPrimary_state s pid patient ed w
      refine ⟨(generatedTasks patient ed w.gemini).map
        (mkTaskDoc pid w.now (generatedTasks patient ed w.gemini).length),
        ?_, ?_, ?_, ?_, ?_, ?_⟩
      · rw [hrun, htasks]
      · unfold tasksFor
        rw [hrun, htasks, List.filter_append, filter_mkTaskDoc]
      · rw [List.length_map]
        exact generatedTasks_length patient ed w.gemini
      · exact mem_map_title _ _ _ _ _ (generatedTasks_mem_education patient ed w.gemini)
      · exact mem_map_title _ _ _ _ _ (generatedTasks_mem_transport patient ed w.gemini)
      · intro p hp2
        injection hp2 with hpe
        subst hpe
        refine ⟨{ patient with
          tasks_generated := true
          discharge_status := if ed.discharge_blockers.isEmpty then "ready" else "blocked"
          updated_at := w.now }, ?_, rfl⟩
        rw [hrun]
        unfold findPatient
        rw [hpats]
        rw [find?_updateFirst s.patients (fun p => p.id == pid)
          (fun q => { q with
            tasks_generated := true
            discharge_status := if ed.discharge_blockers.isEmpty then "ready" else "blocked"
            updated_at := w.now }) (fun a => rfl)]
        have hp' : s.patients.find? (fun p => p.id == pid) = some patient := hp
        rw [hp']
        rfl

/-! Concrete fixtures used by the closed example theorems. -/

/-- A discharge-flow patient record. -/
def examplePatient : Patient :=
  { id := "p1"
    mrn := some "PC-Alice"
    name := "Alice"
    age := some 40
    admission_id := "a1"
    diagnosis := some "Appendicitis"
    ward := some "A"
    bed := some "12"
    readiness_score := some 80
    readmission_risk := some (1/5)
    readmission_risk_level := some "low"
    delay_reason := none
    expected_discharge_at := none
    discharge_status := "in_progress"
    ready_for_discharge_eval := true
    extraction_completed := false
    tasks_generated := false
    created_at := 0
    updated_at := 0 }

/-- An extraction snapshot already persisted for `examplePatient`. -/
def exampleExtracted : ExtractionDoc := mkExtractionDoc "p1" 50 fallbackStaticPayload

/-- Store holding the patient and an extraction snapshot. -/
def exampleState : DBState :=
  { patients := [examplePatient], extracted_data := [exampleExtracted], tasks := [], agent_logs := [] }

/-- Store holding only the patient (no extraction snapshot yet). -/
def exampleStateNoExt : DBState :=
  { patients := [examplePatient], extracted_data := [], tasks := [], agent_logs := [] }

/-- A model response of three well-formed tasks whose titles already include
both essential titles, one of them twice. -/
def dupEssentialGemini : GeminiOutcome :=
  .parsed "ok"
    [{ title := "Patient Education", description := "d", category := "operational", priority := "high" },
     { title := "Patient Education", description := "d", category := "operational", priority := "high" },
     { title := "Arrange Transportation", description := "d", category := "operational", priority := "medium" }]

/-- C3 (counterexample): with patient and extracted data present and the model
returning three tasks titled "Patient Education", "Patient Education",
"Arrange Transportation", Task Synthesis persists exactly 3 tasks — fewer
than the claimed 5 — and two of them are titled "Patient Education", so the
exactly-once clause fails as well. -/
theorem task_synthesis_five_task_guarantee_cex :
    (tasksFor (run_task_generator_agent exampleState "p1"
        { gemini := dupEssentialGemini, now := 100 }) "p1").length = 3 ∧
    (tasksFor (run_task_generator_agent exampleState "p1"
        { gemini := dupEssentialGemini, now := 100 }) "p1").countP
      (fun t => t.title == "Patient Education") = 2 ∧
    ¬(5 ≤ (tasksFor (run_task_generator_agent exampleState "p1"
        { gemini := dupEssentialGemini, now := 100 }) "p1").length ∧
      (tasksFor (run_task_generator_agent exampleState "p1"
        { gemini := dupEssentialGemini, now := 100 }) "p1").countP
        (fun t => t.title == "Patient Education") = 1) := by
  decide

/-- Closed instance of `task_synthesis_core_guarantees`. -/
theorem task_synthesis_core_guarantees_witness :
    ∃ newDocs : List TaskDoc,
      (run_task_generator_agent exampleState "p1"
        { gemini := dupEssentialGemini, now := 100 }).tasks =
        exampleState.tasks ++ newDocs ∧
      tasksFor (run_task_generator_agent exampleState "p1"
        { gemini := dupEssentialGemini, now := 100 }) "p1" =
        tasksFor exampleState "p1" ++ newDocs ∧
      3 ≤ newDocs.length ∧
      (∃ t ∈ newDocs, t.title = "Patient Education") ∧
      (∃ t ∈ newDocs, t.title = "Arrange Transportation") ∧
      (∀ p, findPatient exampleState "p1" = some p →
        ∃ q, findPatient (run_task_generator_agent exampleState "p1"
          { gemini := dupEssentialGemini, now := 100 }) "p1" = some q ∧
          q.tasks_generated = true) :=
  task_synthesis_core_guarantees exampleState "p1" { gemini := dupEssentialGemini, now := 100 }

/-- Closed instance of the C6 theorem at a concrete store, model outcome and
clock, with both lookup hypotheses discharged by evaluation. -/
theorem task_synthesis_primary_persists_pending_witness :
    ∃ newDocs : List TaskDoc,
      (run_task_generator_agent exampleState "p1"
        { gemini := GeminiOutcome.apiError "quota", now := 100 }).tasks =
        exampleState.tasks ++ newDocs ∧
      newDocs.length = (generatedTasks examplePatient exampleExtracted
        (GeminiOutcome.apiError "quota")).length ∧
      (∀ t ∈ newDocs, t.patient_id = "p1" ∧ t.status = "pending" ∧ t.completed_at = none) ∧
      findPatient (run_task_generator_agent exampleState "p1"
        { gemini := GeminiOutcome.apiError "quota", now := 100 }) "p1" =
        some { examplePatient with
                 tasks_generated := true
                 discharge_status := if exampleExtracted.discharge_blockers.isEmpty
                   then "ready" else "blocked"
                 updated_at := 100 } :=
  task_synthesis_primary_persists_pending_and_derives_status exampleState "p1"
    examplePatient exampleExtracted { gemini := GeminiOutcome.apiError "quota", now := 100 }
    rfl rfl

/-- C5: whenever the prerequisite data of Task Synthesis is missing (the
Patient record or its ExtractedData — the triggers of the stage's outer
exception handler in this model), the hard fallback inserts exactly the fixed
five-item task list (doctor clearance, documentation, patient education,
transportation, insurance/billing verification) as pending documents, sets the
patient (when present) to `discharge_status = "pending"` with
`tasks_generated = true`, and appends a `task_generation_failed` AgentLog
entry whose error field carries the error text.  The function is total, so
the stage never raises past its boundary. -/
theorem task_synthesis_hard_fallback_recovery (s : DBState) (pid : String) (w : TaskGenWorld)
    (h : findPatient s pid = none ∨ findExtracted s pid = none) :
    (run_task_generator_agent s pid w).tasks =
      s.tasks ++ hardFallbackTasks.map (mkTaskDoc pid w.now hardFallbackTasks.length) ∧
    hardFallbackTasks.map (fun g => g.title) =
      ["Doctor Discharge Clearance", "Complete Discharge Documentation", "Patient Education",
       "Arrange Transportation", "Verify Insurance and Billing"] ∧
    (∀ t ∈ hardFallbackTasks.map (mkTaskDoc pid w.now hardFallbackTasks.length),
      t.status = "pending" ∧ t.patient_id = pid) ∧
    (run_task_generator_agent s pid w).agent_logs = s.agent_logs ++
      [{ id := toString w.now
         patient_id := pid
         agent_type := "task_generator_agent"
         action := "task_generation_failed"
         reasoning := none
         result := some [("fallback_tasks_inserted", "true")]
         error := some "Missing patient or extracted data"
         timestamp := w.now }] ∧
    (∀ p, findPatient s pid = some p →
      findPatient (run_task_generator_agent s pid w) pid =
        some { p with
          tasks_generated := true
          discharge_status := "pending"
          updated_at := w.now }) := by
  have hrun := run_taskgen_fallback s pid w h
  obtain ⟨hext2, htasks2, hpats2⟩ := taskGenHardFallback_state s pid w
  refine ⟨?_, rfl, ?_, ?_, ?_⟩
  · rw [hrun, htasks2]
  · intro t ht
    obtain ⟨g, _, rfl⟩ := List.mem_map.mp ht
    exact ⟨rfl, rfl⟩
  · rw [hrun]
    rfl
  · intro p hp2
    rw [hrun]
    unfold findPatient
    rw [hpats2]
    rw [find?_updateFirst s.patients (fun q => q.id == pid)
      (fun q => { q with
        tasks_generated := true
        discharge_status := "pending"
        updated_at := w.now }) (fun a => rfl)]
    have hp' : s.patients.find? (fun q => q.id == pid) = some p := hp2
    rw [hp']
    rfl

/-- Closed instance of `task_synthesis_hard_fallback_recovery`: the patient
exists but no ExtractedData does. -/
theorem task_synthesis_hard_fallback_recovery_witness :
    (run_task_generator_agent exampleStateNoExt "p1"
      { gemini := GeminiOutcome.apiError "quota", now := 100 }).tasks =
      exampleStateNoExt.tasks ++
        hardFallbackTasks.map (mkTaskDoc "p1" 100 hardFallbackTasks.length) :=
  (task_synthesis_hard_fallback_recovery exampleStateNoExt "p1"
    { gemini := GeminiOutcome.apiError "quota", now := 100 } (Or.inr rfl)).1

/-- The Task invariant of the data model: `completed_at` is set if and only if
the status is "completed". -/
def taskInv (t : TaskDoc) : Prop := t.completed_at.isSome = true ↔ t.status = "completed"

/-- C9: the completed-at/status invariant holds across all task writes: task
synthesis (either path) only inserts pending tasks with null `completed_at`,
so it preserves the invariant; the status-update endpoint sets `completed_at`
to the current time exactly when the new status is "completed" and resets it
to null otherwise, so it preserves the invariant too. -/
theorem completed_at_iff_completed_invariant (s : DBState)
    (hs : ∀ t ∈ s.tasks, taskInv t) :
    (∀ pid w t, t ∈ (run_task_generator_agent s pid w).tasks → taskInv t) ∧
    (∀ tid st now t, t ∈ (update_task_status s tid st now).tasks → taskInv t) ∧
    (∀ pid w, ∃ newDocs, (run_task_generator_agent s pid w).tasks = s.tasks ++ newDocs ∧
      ∀ t ∈ newDocs, t.status = "pending" ∧ t.completed_at = none) ∧
    (∀ tid st now t0, findTask s tid = some t0 →
      findTask (update_task_status s tid st now) tid =
        some { t0 with
          status := st
          completed_at := if st == "completed" then some now else none }) := by
  refine ⟨?_, ?_, ?_, ?_⟩
  · intro pid w t ht
    obtain ⟨gs, hgs⟩ := taskgen_tasks_append s pid w
    rw [hgs] at ht
    rcases List.mem_append.mp ht with hmem | hmem
    · exact hs t hmem
    · obtain ⟨g, _, rfl⟩ := List.mem_map.mp hmem
      simp [taskInv, mkTaskDoc]
  · intro tid st now t ht
    have ht' : t ∈ updateFirst s.tasks (fun x => x.id == tid) (fun x =>
        { x with
          status := st
          completed_at := if st == "completed" then some now else none }) := ht
    rcases mem_updateFirst ht' with hmem | ⟨a, _, rfl⟩
    · exact hs t hmem
    · cases hst : (st == "completed") with
      | true =>
        have hst' : st = "completed" := by simpa using hst
        subst hst'
        simp [taskInv]
      | false =>
        have hst' : ¬ st = "completed" := by simpa using hst
        simp [taskInv, hst, hst']
  · intro pid w
    obtain ⟨gs, hgs⟩ := taskgen_tasks_append s pid w
    refine ⟨gs.map (mkTaskDoc pid w.now gs.length), hgs, ?_⟩
    intro t ht
    obtain ⟨g, _, rfl⟩ := List.mem_map.mp ht
    exact ⟨rfl, rfl⟩
  · intro tid st now t0 h0
    unfold findTask update_task_status
    rw [show (({ s with tasks := updateFirst s.tasks (fun t => t.id == tid) (fun t =>
      { t with
        status := st
        completed_at := if st == "completed" then some now else none }) } : DBState)).tasks =
      updateFirst s.tasks (fun t => t.id == tid) (fun t =>
      { t with
        status := st
        completed_at := if st == "completed" then some now else none }) from rfl]
    rw [find?_updateFirst s.tasks (fun t => t.id == tid)
      (fun t => { t with
        status := st
        completed_at := if st == "completed" then some now else none }) (fun a => rfl)]
    have h0' : s.tasks.find? (fun t => t.id == tid) = some t0 := h0
    rw [h0']
    rfl

/-- A pending task document for the invariant witness. -/
def exampleTask : TaskDoc := mkTaskDoc "p1" 10 1 patientEducationTask

/-- Store holding `examplePatient` and one pending task. -/
def exampleStateWithTask : DBState :=
  { patients := [examplePatient], extracted_data := [], tasks := [exampleTask], agent_logs := [] }

/-- Closed instance of `completed_at_iff_completed_invariant`: completing the
stored pending task stamps `completed_at` with the current time. -/
theorem completed_at_iff_completed_invariant_witness :
    findTask (update_task_status exampleStateWithTask exampleTask.id "completed" 200)
      exampleTask.id =
      some { exampleTask with
        status := "completed"
        completed_at := if "completed" == "completed" then some (200 : Int) else none } :=
  (completed_at_iff_completed_invariant exampleStateWithTask
    (by intro t ht; simp [exampleStateWithTask] at ht; subst ht;
        simp [taskInv, exampleTask, mkTaskDoc])).2.2.2
    exampleTask.id "completed" 200 exampleTask rfl

/-! Effects of the extraction stage. -/

theorem verificationStep_id (s : DBState) (v : VerifyOutcome) : verificationStep s v = s := by
  cases v <;> rfl

theorem run_extraction_found (s : DBState) (pid : String) (patient : Patient)
    (w : ExtractionWorld) (hp : findPatient s pid = some patient) :
    run_extraction_agent s pid w =
      run_task_generator_agent (extractionPhase s pid patient w) pid w.taskWorld := by
  unfold run_extraction_agent
  rw [hp]
  show run_task_generator_agent
    (verificationStep (extractionPhase s pid patient w) w.verify) pid w.taskWorld = _
  rw [verificationStep_id]

theorem persistedPayload_raises (e : String) :
    persistedPayload (ApiOutcome.raises e) = playwrightFallbackPayload e := rfl

theorem persistedPayload_notJson (txt : String) :
    persistedPayload (ApiOutcome.returns txt ParseOutcome.notJson) = fallbackStaticPayload := rfl

theorem persistedPayload_jsonDict (txt : String) (j : LlmJson) :
    persistedPayload (ApiOutcome.returns txt (ParseOutcome.jsonDict j)) = fallbackStaticPayload := rfl

theorem persistedPayload_jsonNonDict (txt e : String) :
    persistedPayload (ApiOutcome.returns txt (ParseOutcome.jsonNonDict e)) =
      playwrightFallbackPayload e := rfl

theorem find?_append_singleton_isSome (l : List α) (p : α → Bool) (a : α) (ha : p a = true) :
    (((l ++ [a]).find? p).isSome) = true := by
  rw [find?_append_or]
  cases h : l.find? p with
  | some x => simp [Option.orElse, h]
  | none => simp [Option.orElse, h, List.find?_cons, ha]

theorem extractionPhase_effects (s : DBState) (pid : String) (patient : Patient)
    (w : ExtractionWorld) :
    ∃ (pl : ExtractedPayload) (logs : List AgentLogDoc),
      (extractionPhase s pid patient w).extracted_data =
        s.extracted_data ++ [mkExtractionDoc pid w.now pl] ∧
      (extractionPhase s pid patient w).tasks = s.tasks ∧
      (extractionPhase s pid patient w).patients =
        updateFirst s.patients (fun q => q.id == pid)
          (fun q => { q with extraction_completed := true, updated_at := w.now }) ∧
      (extractionPhase s pid patient w).agent_logs = s.agent_logs ++ logs ∧
      logs ≠ [] ∧ (∀ lg ∈ logs, lg.patient_id = pid ∧ lg.error = none) ∧
      (patient.mrn = none → pl = errorFallbackPayload "'mrn'") ∧
      (patient.mrn.isSome → pl = persistedPayload w.api) := by
  cases hm : patient.mrn with
  | none =>
    refine ⟨errorFallbackPayload "'mrn'",
      [{ id := toString w.now
         patient_id := pid
         agent_type := "extraction_agent"
         action := "extraction_failed_fallback_used"
         reasoning := some ("Extraction error occurred, used fallback data: " ++ "'mrn'")
         result := some [("extraction_id", (mkExtractionDoc pid w.now (errorFallbackPayload "'mrn'")).id),
                         ("error", "'mrn'")]
         error := none
         timestamp := w.now }], ?_, ?_, ?_, ?_, ?_, ?_, ?_, ?_⟩
    · unfold extractionPhase
      rw [hm]
      exact rfl
    · unfold extractionPhase
      rw [hm]
      exact rfl
    · unfold extractionPhase
      rw [hm]
      exact rfl
    · unfold extractionPhase
      rw [hm]
      exact rfl
    · simp
    · intro lg hlg
      simp at hlg
      subst hlg
      exact ⟨rfl, rfl⟩
    · intro _
      rfl
    · intro hcon
      simp at hcon
  | some m =>
    refine ⟨persistedPayload w.api,
      [{ id := toString w.now
         patient_id := pid
         agent_type := "extraction_agent"
         action := "start_extraction"
         reasoning := some ("Starting data extraction for patient " ++ m)
         result := none
         error := none
         timestamp := w.now },
       { id := toString w.now
         patient_id := pid
         agent_type := "extraction_agent"
         action := "extraction_complete"
         reasoning := some "Successfully extracted patient data"
         result := some [("extraction_id", (mkExtractionDoc pid w.now (persistedPayload w.api)).id)]
         error := none
         timestamp := w.now }], ?_, ?_, ?_, ?_, ?_, ?_, ?_, ?_⟩
    · unfold extractionPhase
      rw [hm]
      exact rfl
    · unfold extractionPhase
      rw [hm]
      exact rfl
    · unfold extractionPhase
      rw [hm]
      exact rfl
    · unfold extractionPhase
      rw [hm]
      show (s.agent_logs ++ [_]) ++ [_] = _
      rw [List.append_assoc]
      rfl
    · simp
    · intro lg hlg
      simp at hlg
      rcases hlg with hlg | hlg <;> subst hlg <;> exact ⟨rfl, rfl⟩
    · intro hcon
      simp at hcon
    · intro _
      rfl

theorem taskgen_patient_update (s : DBState) (pid : String) (w : TaskGenWorld) (p : Patient)
    (hp : findPatient s pid = some p) :
    ∃ ds, findPatient (run_task_generator_agent s pid w) pid =
      some { p with tasks_generated := true, discharge_status := ds, updated_at := w.now } := by
  rcases he : findExtracted s pid with _ | ed
  · have hrun := run_taskgen_fallback s pid w (Or.inr he)
    obtain ⟨_, _, hpats2⟩ := taskGenHardFallback_state s pid w
    refine ⟨"pending", ?_⟩
    rw [hrun]
    unfold findPatient
    rw [hpats2]
    rw [find?_updateFirst s.patients (fun q => q.id == pid)
      (fun q => { q with
        tasks_generated := true
        discharge_status := "pending"
        updated_at := w.now }) (fun a => rfl)]
    have hp' : s.patients.find? (fun q => q.id == pid) = some p := hp
    rw [hp']
    rfl
  · have hrun := run_taskgen_primary s pid p ed w hp he
    obtain ⟨_, _, hpats⟩ := taskGenPrimary_state s pid p ed w
    refine ⟨if ed.discharge_blockers.isEmpty then "ready" else "blocked", ?_⟩
    rw [hrun]
    unfold findPatient
    rw [hpats]
    rw [find?_updateFirst s.patients (fun q => q.id == pid)
      (fun q => { q with
        tasks_generated := true
        discharge_status := if ed.discharge_blockers.isEmpty then "ready" else "blocked"
        updated_at := w.now }) (fun a => rfl)]
    have hp' : s.patients.find? (fun q => q.id == pid) = some p := hp
    rw [hp']
    rfl

theorem taskGenPrimary_logs (s : DBState) (pid : String) (patient : Patient)
    (ed : ExtractionDoc) (w : TaskGenWorld) :
    (taskGenPrimary s pid patient ed w).agent_logs =
      s.agent_logs ++
        [{ id := toString w.now
           patient_id := pid
           agent_type := "task_generator_agent"
           action := "start_task_generation"
           reasoning := some "Analyzing extracted data to generate discharge tasks"
           result := none
           error := none
           timestamp := w.now },
         { id := toString w.now
           patient_id := pid
           agent_type := "task_generator_agent"
           action := "tasks_generated"
           reasoning := some ("Generated " ++
             toString (generatedTasks patient ed w.gemini).length ++ " discharge tasks")
           result := some [("task_count", toString (generatedTasks patient ed w.gemini).length),
                           ("llm_response", w.gemini.rawText.take 200)]
           error := none
           timestamp := w.now }] := by
  show (s.agent_logs ++ [_]) ++ [_] = _
  rw [List.append_assoc]
  rfl

theorem run_extraction_inserts (s : DBState) (pid : String) (patient : Patient) (m : String)
    (w : ExtractionWorld) (hp : findPatient s pid = some patient) (hm : patient.mrn = some m) :
    (run_extraction_agent s pid w).extracted_data =
      s.extracted_data ++ [mkExtractionDoc pid w.now (persistedPayload w.api)] := by
  rw [run_extraction_found s pid patient w hp, taskgen_extracted]
  obtain ⟨pl, logs, hext, _, _, _, _, _, _, hpl⟩ := extractionPhase_effects s pid patient w
  rw [hext, hpl (by rw [hm]; rfl)]

theorem extractionPhase_findPatient (s : DBState) (pid : String) (patient : Patient)
    (w : ExtractionWorld) (hp : findPatient s pid = some patient) :
    findPatient (extractionPhase s pid patient w) pid =
      some { patient with extraction_completed := true, updated_at := w.now } := by
  obtain ⟨pl, logs, hext, htk, hpats, hlogs, _, _, _, _⟩ := extractionPhase_effects s pid patient w
  unfold findPatient
  rw [hpats]
  rw [find?_updateFirst s.patients (fun q => q.id == pid)
    (fun q => { q with extraction_completed := true, updated_at := w.now }) (fun a => rfl)]
  have hp' : s.patients.find? (fun q => q.id == pid) = some patient := hp
  rw [hp']
  rfl

theorem run_extraction_patient_flags (s : DBState) (pid : String) (patient : Patient)
    (w : ExtractionWorld) (hp : findPatient s pid = some patient) :
    ∃ q, findPatient (run_extraction_agent s pid w) pid = some q ∧
      q.extraction_completed = true ∧ q.tasks_generated = true := by
  rw [run_extraction_found s pid patient w hp]
  obtain ⟨ds, hq⟩ := taskgen_patient_update (extractionPhase s pid patient w) pid w.taskWorld
    { patient with extraction_completed := true, updated_at := w.now }
    (extractionPhase_findPatient s pid patient w hp)
  exact ⟨_, hq, rfl, rfl⟩

theorem persistedPayload_method (api : ApiOutcome) :
    (persistedPayload api).extraction_method = "playwright_mcp_fallback" ∨
    (persistedPayload api).extraction_method = "fallback_static" := by
  cases api with
  | raises e => exact Or.inl rfl
  | returns txt p =>
    cases p with
    | notJson => exact Or.inr rfl
    | jsonNonDict e => exact Or.inl rfl
    | jsonDict j => exact Or.inr rfl

/-- C1 (amended): for a patient whose record (and `mrn` field) exists, if the
external extraction call throws, the Extraction Stage inserts the fallback
ExtractedData with provenance tag `playwright_mcp_fallback` (NOT
`error_fallback` — that tag belongs to the outer handler of
`run_extraction_agent`, which this path never reaches because
`run_playwright_mcp_extraction` absorbs the exception), the error text is
carried in the record's `llm_reasoning`, the patient ends with
`extraction_completed = true`, Task Synthesis is still invoked afterward
(leaving `tasks_generated = true`), and AgentLog entries are written for the
patient — but every one of them has a NULL error field.  The claim's
`error_fallback` tag and non-null-error log are refuted by
`extraction_failure_scenario_cex`. -/
theorem extraction_call_throws_fallback_path (s : DBState) (pid : String) (patient : Patient)
    (m e : String) (w : ExtractionWorld)
    (hp : findPatient s pid = some patient) (hm : patient.mrn = some m)
    (ha : w.api = ApiOutcome.raises e) :
    (run_extraction_agent s pid w).extracted_data =
      s.extracted_data ++ [mkExtractionDoc pid w.now (playwrightFallbackPayload e)] ∧
    (playwrightFallbackPayload e).extraction_method = "playwright_mcp_fallback" ∧
    (playwrightFallbackPayload e).llm_reasoning = "Error during extraction: " ++ e ∧
    (∃ q, findPatient (run_extraction_agent s pid w) pid = some q ∧
      q.extraction_completed = true ∧ q.tasks_generated = true) ∧
    (∃ logs, (run_extraction_agent s pid w).agent_logs = s.agent_logs ++ logs ∧
      logs ≠ [] ∧ ∀ lg ∈ logs, lg.patient_id = pid ∧ lg.error = none) := by
  refine ⟨?_, rfl, rfl, run_extraction_patient_flags s pid patient w hp, ?_⟩
  · rw [run_extraction_inserts s pid patient m w hp hm, ha, persistedPayload_raises]
  · rw [run_extraction_found s pid patient w hp]
    obtain ⟨pl, extLogs, hext, _, hpats, hlogs, hne, herrs, _, _⟩ :=
      extractionPhase_effects s pid patient w
    have hfp1 := extractionPhase_findPatient s pid patient w hp
    have hedsome : (findExtracted (extractionPhase s pid patient w) pid).isSome = true := by
      unfold findExtracted
      rw [hext]
      exact find?_append_singleton_isSome _ _ _ (by simp [mkExtractionDoc])
    obtain ⟨ed, hed⟩ := Option.isSome_iff_exists.mp hedsome
    have hrun2 := run_taskgen_primary (extractionPhase s pid patient w) pid
      { patient with extraction_completed := true, updated_at := w.now } ed w.taskWorld hfp1 hed
    rw [hrun2, taskGenPrimary_logs, hlogs]
    refine ⟨_, by rw [List.append_assoc], by simp, ?_⟩
    intro lg hlg
    rcases List.mem_append.mp hlg with hmem | hmem
    · exact herrs lg hmem
    · simp at hmem
      rcases hmem with hmem | hmem <;> subst hmem <;> exact ⟨rfl, rfl⟩

/-- C2: when the external automation request and its response processing
complete without raising, `run_playwright_mcp_extraction` returns `None`
(its only return statement lies inside the exception handler), and
consequently `run_extraction_agent` treats the result as invalid and persists
the static snapshot tagged `fallback_static` instead of the data obtained
from the successful call. -/
theorem playwright_success_returns_none_and_static_fallback (txt : String) (p : ParseOutcome)
    (hok : parseRaisesInTry p = false) :
    run_playwright_mcp_extraction (ApiOutcome.returns txt p) = none ∧
    fallbackStaticPayload.extraction_method = "fallback_static" ∧
    ∀ s pid patient m w, findPatient s pid = some patient → patient.mrn = some m →
      w.api = ApiOutcome.returns txt p →
      (run_extraction_agent s pid w).extracted_data =
        s.extracted_data ++ [mkExtractionDoc pid w.now fallbackStaticPayload] := by
  have hnone : run_playwright_mcp_extraction (ApiOutcome.returns txt p) = none := by
    cases p with
    | notJson => rfl
    | jsonDict j => rfl
    | jsonNonDict e => simp [parseRaisesInTry] at hok
  refine ⟨hnone, rfl, ?_⟩
  intro s pid patient m w hp hm ha
  rw [run_extraction_inserts s pid patient m w hp hm, ha]
  have hpl : persistedPayload (ApiOutcome.returns txt p) = fallbackStaticPayload := by
    unfold persistedPayload
    rw [hnone]
  rw [hpl]

/-- C4: for every extraction run on an existing patient with an `mrn`, in each
of the three failure cases — the response text fails to parse as JSON, the
call errors, or the parsed object is not a mapping — the persisted
ExtractedData equals a fixed deterministic fallback snapshot (the
`fallback_static` snapshot in the parse-failure case, the Playwright fallback
snapshot in the other two), never a record built from the unparseable
response: the response text does not occur in the persisted record, and the
snapshot's clinical fields do not even depend on the error text (only
`llm_reasoning` does). -/
theorem extraction_failure_persists_fixed_snapshot (s : DBState) (pid : String)
    (patient : Patient) (m : String) (w : ExtractionWorld)
    (hp : findPatient s pid = some patient) (hm : patient.mrn = some m) :
    (∀ txt, w.api = ApiOutcome.returns txt ParseOutcome.notJson →
      (run_extraction_agent s pid w).extracted_data =
        s.extracted_data ++ [mkExtractionDoc pid w.now fallbackStaticPayload]) ∧
    (∀ e, w.api = ApiOutcome.raises e →
      (run_extraction_agent s pid w).extracted_data =
        s.extracted_data ++ [mkExtractionDoc pid w.now (playwrightFallbackPayload e)]) ∧
    (∀ txt e, w.api = ApiOutcome.returns txt (ParseOutcome.jsonNonDict e) →
      (run_extraction_agent s pid w).extracted_data =
        s.extracted_data ++ [mkExtractionDoc pid w.now (playwrightFallbackPayload e)]) ∧
    (∀ e1 e2 : String,
      { playwrightFallbackPayload e1 with llm_reasoning := "" } =
        { playwrightFallbackPayload e2 with llm_reasoning := "" }) := by
  refine ⟨?_, ?_, ?_, fun e1 e2 => rfl⟩
  · intro txt ha
    rw [run_extraction_inserts s pid patient m w hp hm, ha, persistedPayload_notJson]
  · intro e ha
    rw [run_extraction_inserts s pid patient m w hp hm, ha, persistedPayload_raises]
  · intro txt e ha
    rw [run_extraction_inserts s pid patient m w hp hm, ha, persistedPayload_jsonNonDict]

/-- C7 (amended): after the Extraction Stage completes on an existing patient
(by either path), exactly one new ExtractedData record for that patient is
appended, its provenance tag is a non-empty string and one of
`playwright_mcp_fallback`, `fallback_static`, or `error_fallback` (NOT the
spec's `automation_success | error_fallback | invalid_response_fallback` —
see `extraction_provenance_tag_cex`; the `api_service_automation` success tag
is never persisted because the success path of
`run_playwright_mcp_extraction` returns `None`), and the patient ends with
`extraction_completed = true`. -/
theorem extraction_stage_provenance (s : DBState) (pid : String) (patient : Patient)
    (w : ExtractionWorld) (hp : findPatient s pid = some patient) :
    ∃ d : ExtractionDoc,
      (run_extraction_agent s pid w).extracted_data = s.extracted_data ++ [d] ∧
      d.patient_id = pid ∧
      d.extraction_method ≠ "" ∧
      (d.extraction_method = "playwright_mcp_fallback" ∨
       d.extraction_method = "fallback_static" ∨
       d.extraction_method = "error_fallback") ∧
      ∃ q, findPatient (run_extraction_agent s pid w) pid = some q ∧
        q.extraction_completed = true := by
  obtain ⟨pl, extLogs, hext, _, hpats, hlogs, hne, herrs, hplnone, hplsome⟩ :=
    extractionPhase_effects s pid patient w
  have hx : (run_extraction_agent s pid w).extracted_data =
      s.extracted_data ++ [mkExtractionDoc pid w.now pl] := by
    rw [run_extraction_found s pid patient w hp, taskgen_extracted, hext]
  have hmeth : pl.extraction_method = "playwright_mcp_fallback" ∨
      pl.extraction_method = "fallback_static" ∨
      pl.extraction_method = "error_fallback" := by
    cases hmm : patient.mrn with
    | none =>
      rw [hplnone hmm]
      exact Or.inr (Or.inr rfl)
    | some mm =>
      rw [hplsome (by rw [hmm]; rfl)]
      rcases persistedPayload_method w.api with hh | hh
      · exact Or.inl hh
      · exact Or.inr (Or.inl hh)
  refine ⟨mkExtractionDoc pid w.now pl, hx, rfl, ?_, hmeth, ?_⟩
  · show pl.extraction_method ≠ ""
    rcases hmeth with hh | hh | hh <;> rw [hh] <;> simp
  · obtain ⟨q, hq, h1, _⟩ := run_extraction_patient_flags s pid patient w hp
    exact ⟨q, hq, h1⟩

/-- C8: the Verification Stage is pure frame: for every verification outcome
(success, non-success status, transport failure, or timeout) the store —
patients, extracted data, tasks, logs — is untouched by the verification
step, the final state of the pipeline does not depend on the verification
outcome at all, and the pipeline proceeds to Task Synthesis in every case. -/
theorem verification_stage_frame_and_proceeds (s : DBState) (pid : String) (patient : Patient)
    (w : ExtractionWorld) (hp : findPatient s pid = some patient) :
    (∀ s2 v, verificationStep s2 v = s2) ∧
    (∀ v1 v2, run_extraction_agent s pid { w with verify := v1 } =
       run_extraction_agent s pid { w with verify := v2 }) ∧
    run_extraction_agent s pid w =
      run_task_generator_agent (extractionPhase s pid patient w) pid w.taskWorld := by
  refine ⟨verificationStep_id, ?_, run_extraction_found s pid patient w hp⟩
  intro v1 v2
  rw [run_extraction_found s pid patient { w with verify := v1 } hp,
    run_extraction_found s pid patient { w with verify := v2 } hp]
  exact rfl

/-- An extraction-stage world in which the external automation call throws. -/
def exampleThrowWorld : ExtractionWorld :=
  { api := ApiOutcome.raises "boom"
    verify := VerifyOutcome.success
    taskWorld := { gemini := GeminiOutcome.apiError "quota", now := 100 }
    now := 100 }

/-- An extraction-stage world in which the call succeeds but the response
text is not JSON. -/
def exampleBadJsonWorld : ExtractionWorld :=
  { api := ApiOutcome.returns "the page said hello" ParseOutcome.notJson
    verify := VerifyOutcome.nonSuccess 500
    taskWorld := { gemini := GeminiOutcome.parseFail "x", now := 100 }
    now := 100 }

/-- C1 (counterexample): at a concrete store holding the patient, when the
external call throws ("boom"), the inserted ExtractedData carries provenance
`playwright_mcp_fallback` — not `error_fallback` — and NO AgentLog entry with
a non-null error field exists after the stage. -/
theorem extraction_failure_scenario_cex :
    ((run_extraction_agent exampleStateNoExt "p1" exampleThrowWorld).extracted_data.map
      (fun d => d.extraction_method) = ["playwright_mcp_fallback"]) ∧
    (¬ ∃ d ∈ (run_extraction_agent exampleStateNoExt "p1" exampleThrowWorld).extracted_data,
      d.extraction_method = "error_fallback") ∧
    (¬ ∃ lg ∈ (run_extraction_agent exampleStateNoExt "p1" exampleThrowWorld).agent_logs,
      lg.error ≠ none) := by
  decide

/-- Closed instance of `extraction_call_throws_fallback_path`. -/
theorem extraction_call_throws_fallback_path_witness :
    (run_extraction_agent exampleStateNoExt "p1" exampleThrowWorld).extracted_data =
      exampleStateNoExt.extracted_data ++
        [mkExtractionDoc "p1" 100 (playwrightFallbackPayload "boom")] :=
  (extraction_call_throws_fallback_path exampleStateNoExt "p1" examplePatient "PC-Alice" "boom"
    exampleThrowWorld rfl rfl rfl).1

/-- Closed instance of `playwright_success_returns_none_and_static_fallback`. -/
theorem playwright_success_returns_none_witness :
    run_playwright_mcp_extraction
      (ApiOutcome.returns "the page said hello" ParseOutcome.notJson) = none :=
  (playwright_success_returns_none_and_static_fallback "the page said hello"
    ParseOutcome.notJson rfl).1

/-- Closed instance of `extraction_failure_persists_fixed_snapshot` at the
parse-failure case. -/
theorem extraction_failure_persists_fixed_snapshot_witness :
    (run_extraction_agent exampleStateNoExt "p1" exampleBadJsonWorld).extracted_data =
      exampleStateNoExt.extracted_data ++ [mkExtractionDoc "p1" 100 fallbackStaticPayload] :=
  (extraction_failure_persists_fixed_snapshot exampleStateNoExt "p1" examplePatient "PC-Alice"
    exampleBadJsonWorld rfl rfl).1 "the page said hello" rfl

/-- C7 (counterexample): a concrete run persists the provenance tag
`playwright_mcp_fallback`, which is none of the spec's three names
`automation_success`, `error_fallback`, `invalid_response_fallback`. -/
theorem extraction_provenance_tag_cex :
    ∃ d ∈ (run_extraction_agent exampleStateNoExt "p1" exampleThrowWorld).extracted_data,
      d.patient_id = "p1" ∧ d.extraction_method = "playwright_mcp_fallback" ∧
      ¬ (d.extraction_method = "automation_success" ∨ d.extraction_method = "error_fallback" ∨
         d.extraction_method = "invalid_response_fallback") := by
  decide

/-- Closed instance of `extraction_stage_provenance`. -/
theorem extraction_stage_provenance_witness :
    ∃ d : ExtractionDoc,
      (run_extraction_agent exampleStateNoExt "p1" exampleThrowWorld).extracted_data =
        exampleStateNoExt.extracted_data ++ [d] ∧
      d.patient_id = "p1" ∧
      d.extraction_method ≠ "" ∧
      (d.extraction_method = "playwright_mcp_fallback" ∨
       d.extraction_method = "fallback_static" ∨
       d.extraction_method = "error_fallback") ∧
      ∃ q, findPatient (run_extraction_agent exampleStateNoExt "p1" exampleThrowWorld) "p1" =
        some q ∧ q.extraction_completed = true :=
  extraction_stage_provenance exampleStateNoExt "p1" examplePatient exampleThrowWorld rfl

/-- Closed instance of `verification_stage_frame_and_proceeds`: a timeout and
a transport failure of the verification service produce the same final
pipeline state. -/
theorem verification_stage_frame_witness :
    run_extraction_agent exampleStateNoExt "p1"
      { exampleThrowWorld with verify := VerifyOutcome.timeout } =
    run_extraction_agent exampleStateNoExt "p1"
      { exampleThrowWorld with verify := VerifyOutcome.transportError "refused" } :=
  (verification_stage_frame_and_proceeds exampleStateNoExt "p1" examplePatient
    exampleThrowWorld rfl).2.1 VerifyOutcome.timeout (VerifyOutcome.transportError "refused")

/-- C10: the aggregation engine is a pure function of the Patient and Task
collections (and the clock): two stores agreeing on those collections produce
identical KPI, throughput, task-trend — and in fact identical full —
overview outputs, whatever their extraction or log collections hold. -/
theorem aggregation_deterministic (s1 s2 : DBState) (now : Int)
    (hpat : s1.patients = s2.patients) (htasks : s1.tasks = s2.tasks) :
    (get_overview s1 now).kpis = (get_overview s2 now).kpis ∧
    (get_overview s1 now).throughput = (get_overview s2 now).throughput ∧
    (get_overview s1 now).taskTrend = (get_overview s2 now).taskTrend ∧
    get_overview s1 now = get_overview s2 now := by
  unfold get_overview
  rw [hpat, htasks]
  exact ⟨rfl, rfl, rfl, rfl⟩

/-- Store with one patient and one task and no audit trail. -/
def exampleStateBase : DBState :=
  { patients := [examplePatient], extracted_data := [], tasks := [exampleTask], agent_logs := [] }

/-- Same patients and tasks as `exampleStateBase`, but a different audit trail
and a persisted extraction snapshot. -/
def exampleStateAltLogs : DBState :=
  { patients := [examplePatient]
    extracted_data := [exampleExtracted]
    tasks := [exampleTask]
    agent_logs := [{ id := "1"
                     patient_id := "p1"
                     agent_type := "extraction_agent"
                     action := "start_extraction"
                     reasoning := none
                     result := none
                     error := none
                     timestamp := 5 }] }

/-- Closed instance of `aggregation_deterministic`. -/
theorem aggregation_deterministic_witness :
    get_overview exampleStateBase 1000 = get_overview exampleStateAltLogs 1000 :=
  (aggregation_deterministic exampleStateBase exampleStateAltLogs 1000 rfl rfl).2.2.2
